import Mathlib

/-
  Verification of the Pollinations MCP adapter (src/index.ts).

  The adapter is modelled as a total Lean function over an explicit network
  oracle.  JavaScript numbers are modelled as exact decimals (`JSNum`): the
  adapter performs no arithmetic on numbers, it only carries them through and
  stringifies them, so exact decimals are a faithful model of the JSON numbers
  that flow through the handler.  JSON values are a small AST (`JVal`) that
  includes `undefined`, which `JSON.stringify` drops from objects.
-/

namespace Pollinations

/-- A JavaScript number as an exact decimal `mant / 10 ^ exp`. -/
structure JSNum where
  mant : Int
  exp : Nat
deriving DecidableEq, Repr

/-- Embed an integer as a `JSNum`. -/
def JSNum.int (n : Int) : JSNum := ⟨n, 0⟩

/-- Strip trailing decimal zeros, as `Number.prototype.toString` does. -/
def JSNum.normGo : Int → Nat → JSNum
  | m, 0 => ⟨m, 0⟩
  | m, e + 1 => if m % 10 = 0 then JSNum.normGo (m / 10) e else ⟨m, e + 1⟩

/-- Canonical form of a `JSNum` (no trailing fractional zeros). -/
def JSNum.norm (n : JSNum) : JSNum := JSNum.normGo n.mant n.exp

/-- Render a `JSNum` the way `Number.prototype.toString` renders it:
decimal digits, a `.` only when there is a fractional part. -/
def JSNum.render (n : JSNum) : String :=
  let n := n.norm
  if n.exp = 0 then toString n.mant
  else
    let digits := toString n.mant.natAbs
    let digits := String.mk (List.replicate (n.exp + 1 - digits.length) '0') ++ digits
    let point := digits.length - n.exp
    (if n.mant < 0 then "-" else "") ++ digits.take point ++ "." ++ digits.drop point

/-- `b.toString()` for a JavaScript boolean. -/
def jsBoolString (b : Bool) : String := if b then "true" else "false"

/-- Uppercase hexadecimal digit, for percent-escapes. -/
def hexUpper (n : Nat) : Char :=
  if n < 10 then Char.ofNat (48 + n) else Char.ofNat (55 + n)

/-- Lowercase hexadecimal digit, for `\uXXXX` string escapes. -/
def hexLower (n : Nat) : Char :=
  if n < 10 then Char.ofNat (48 + n) else Char.ofNat (87 + n)

/-- `%XX` escape of one byte, uppercase hex. -/
def percentByte (b : Nat) : String :=
  "%" ++ String.mk [hexUpper (b / 16), hexUpper (b % 16)]

/-- Bytes `encodeURIComponent` leaves unescaped:
`A-Z a-z 0-9 - _ . ! ~ * ' ( )`. -/
def uriComponentUnreserved (b : Nat) : Bool :=
  (48 ≤ b && b ≤ 57) || (65 ≤ b && b ≤ 90) || (97 ≤ b && b ≤ 122) ||
  b == 45 || b == 95 || b == 46 || b == 33 || b == 126 ||
  b == 42 || b == 39 || b == 40 || b == 41

/-- The UTF-8 bytes of one character (code point), as natural numbers. -/
def utf8Bytes (c : Char) : List Nat :=
  let n := c.toNat
  if n < 128 then [n]
  else if n < 2048 then [192 + n / 64, 128 + n % 64]
  else if n < 65536 then [224 + n / 4096, 128 + n / 64 % 64, 128 + n % 64]
  else [240 + n / 262144, 128 + n / 4096 % 64, 128 + n / 64 % 64, 128 + n % 64]

/-- The UTF-8 byte sequence of a string. -/
def stringUTF8 (s : String) : List Nat := (s.data.map utf8Bytes).flatten

/-- JavaScript `encodeURIComponent`: UTF-8 bytes, unreserved bytes kept,
all others percent-escaped.  (All unescaped characters are ASCII, so a
byte-level translation agrees with the character-level one.) -/
def encodeURIComponent (s : String) : String :=
  (stringUTF8 s).foldl
    (fun acc n =>
      acc ++ (if uriComponentUnreserved n then String.mk [Char.ofNat n] else percentByte n))
    ""

/-- Bytes the `application/x-www-form-urlencoded` serializer keeps:
`A-Z a-z 0-9 * - . _`. -/
def formUnreserved (b : Nat) : Bool :=
  (48 ≤ b && b ≤ 57) || (65 ≤ b && b ≤ 90) || (97 ≤ b && b ≤ 122) ||
  b == 42 || b == 45 || b == 46 || b == 95

/-- `application/x-www-form-urlencoded` percent-encoding of one string
(space becomes `+`), as used by `URLSearchParams.toString`. -/
def formEncode (s : String) : String :=
  (stringUTF8 s).foldl
    (fun acc n =>
      acc ++ (if formUnreserved n then String.mk [Char.ofNat n]
              else if n == 32 then "+" else percentByte n))
    ""

/-- `URLSearchParams.toString()` on an ordered list of name/value pairs. -/
def urlSearchParamsToString (ps : List (String × String)) : String :=
  String.intercalate "&" (ps.map (fun p => formEncode p.1 ++ "=" ++ formEncode p.2))

/-- JSON values as `JSON.stringify` sees them.  `jundefined` is JavaScript
`undefined`: legal as an object field value, and dropped by `stringify`. -/
inductive JVal where
  | jundefined : JVal
  | jnull : JVal
  | jbool : Bool → JVal
  | jnum : JSNum → JVal
  | jstr : String → JVal
  | jarr : List JVal → JVal
  | jobj : List (String × JVal) → JVal

/-- One character of a JSON string literal, escaped as `JSON.stringify`
escapes it. -/
def jsonEscapeChar (c : Char) : String :=
  if c = '"' then "\\\""
  else if c = '\\' then "\\\\"
  else if c = '\n' then "\\n"
  else if c = '\r' then "\\r"
  else if c = '\t' then "\\t"
  else if c.toNat = 8 then "\\b"
  else if c.toNat = 12 then "\\f"
  else if c.toNat < 32 then
    "\\u00" ++ String.mk [hexLower (c.toNat / 16), hexLower (c.toNat % 16)]
  else String.mk [c]

/-- A JSON string literal with its quotes. -/
def jsonQuote (s : String) : String :=
  "\"" ++ String.join (s.toList.map jsonEscapeChar) ++ "\""

mutual

/-- Compact `JSON.stringify(v)`: no whitespace, `undefined` object fields
dropped. -/
def JVal.stringifyC : JVal → String
  | .jundefined => "null"
  | .jnull => "null"
  | .jbool b => jsBoolString b
  | .jnum n => n.render
  | .jstr s => jsonQuote s
  | .jarr xs => "[" ++ String.intercalate "," (JVal.stringifyArrC xs) ++ "]"
  | .jobj fs => "\x7b" ++ String.intercalate "," (JVal.stringifyObjC fs) ++ "\x7d"

/-- Compact serialization of array elements. -/
def JVal.stringifyArrC : List JVal → List String
  | [] => []
  | x :: xs => JVal.stringifyC x :: JVal.stringifyArrC xs

/-- Compact serialization of object fields; `undefined` fields are dropped. -/
def JVal.stringifyObjC : List (String × JVal) → List String
  | [] => []
  | (_, .jundefined) :: fs => JVal.stringifyObjC fs
  | (k, v) :: fs => (jsonQuote k ++ ":" ++ JVal.stringifyC v) :: JVal.stringifyObjC fs

end

/-- `n` spaces. -/
def indentStr (n : Nat) : String := String.mk (List.replicate n ' ')

mutual

/-- Pretty `JSON.stringify(v, null, 2)` at indentation depth `ind`. -/
def JVal.stringifyP (ind : Nat) : JVal → String
  | .jundefined => "null"
  | .jnull => "null"
  | .jbool b => jsBoolString b
  | .jnum n => n.render
  | .jstr s => jsonQuote s
  | .jarr xs =>
    let items := JVal.stringifyArrP (ind + 2) xs
    if items.isEmpty then "[]"
    else
      "[\n" ++ String.intercalate ",\n" (items.map (fun it => indentStr (ind + 2) ++ it)) ++
        "\n" ++ indentStr ind ++ "]"
  | .jobj fs =>
    let items := JVal.stringifyObjP (ind + 2) fs
    if items.isEmpty then "\x7b\x7d"
    else
      "\x7b\n" ++ String.intercalate ",\n" (items.map (fun it => indentStr (ind + 2) ++ it)) ++
        "\n" ++ indentStr ind ++ "\x7d"

/-- Pretty serialization of array elements at depth `ind`. -/
def JVal.stringifyArrP : Nat → List JVal → List String
  | _, [] => []
  | ind, x :: xs => JVal.stringifyP ind x :: JVal.stringifyArrP ind xs

/-- Pretty serialization of object fields at depth `ind`; `undefined`
fields are dropped. -/
def JVal.stringifyObjP : Nat → List (String × JVal) → List String
  | _, [] => []
  | ind, (_, .jundefined) :: fs => JVal.stringifyObjP ind fs
  | ind, (k, v) :: fs =>
    (jsonQuote k ++ ": " ++ JVal.stringifyP ind v) :: JVal.stringifyObjP ind fs

end

/-! ## The adapter model (src/index.ts) -/

/-- `POLLINATIONS_IMAGE_API` from the source. -/
def POLLINATIONS_IMAGE_API : String := "https://image.pollinations.ai/prompt"

/-- `POLLINATIONS_TEXT_API` from the source. -/
def POLLINATIONS_TEXT_API : String := "https://text.pollinations.ai"

/-- HTTP method of an outbound `fetch`. -/
inductive HttpMethod where
  | get : HttpMethod
  | head : HttpMethod
  | post : HttpMethod
deriving DecidableEq, Repr

/-- An outbound `fetch` request: URL, method, headers, optional body. -/
structure FetchRequest where
  url : String
  method : HttpMethod
  headers : List (String × String)
  body : Option String
deriving DecidableEq, Repr

/-- A thrown JavaScript value, as the `catch` clause classifies it:
an `Error` object carrying a message, or any non-`Error` value. -/
inductive JSError where
  | error : String → JSError
  | nonError : JSError
deriving DecidableEq, Repr

/-- Outcome of an awaited `fetch`: a response with its `ok` flag, status
text and body text, or a rejection with a thrown value. -/
inductive FetchOutcome where
  | resp : Bool → String → String → FetchOutcome
  | fault : JSError → FetchOutcome
deriving DecidableEq, Repr

/-- One content part of a tool result (`type: "text"` or `type: "image"`). -/
inductive ContentPart where
  | text : String → ContentPart
  | image : (data : String) → (mimeType : String) → ContentPart
deriving DecidableEq, Repr

/-- The value returned to the MCP framework by the call-tool handler. -/
structure CallToolResult where
  content : List ContentPart
  isError : Bool
deriving DecidableEq, Repr

/-- The untyped `arguments` map of a call-tool request, restricted to the
fields the two handlers destructure.  `none` is an absent (undefined)
field. -/
structure ToolArgs where
  prompt : Option String := none
  width : Option JSNum := none
  height : Option JSNum := none
  seed : Option JSNum := none
  model : Option String := none
  nologo : Option Bool := none
  enhance : Option Bool := none
  temperature : Option JSNum := none
  max_tokens : Option JSNum := none
  system : Option String := none
deriving DecidableEq, Repr

/-- The destructured locals of the `generate_image` case, defaults applied. -/
structure ImageParams where
  prompt : Option String
  width : JSNum
  height : JSNum
  seed : Option JSNum
  model : String
  nologo : Bool
  enhance : Bool
deriving DecidableEq, Repr

/-- The destructuring
`const { prompt, width = 1024, height = 1024, seed, model = "flux",
nologo = true, enhance = false } = imageArgs`. -/
def resolveImageArgs (a : ToolArgs) : ImageParams :=
  ⟨a.prompt, a.width.getD (JSNum.int 1024), a.height.getD (JSNum.int 1024),
   a.seed, a.model.getD "flux", a.nologo.getD true, a.enhance.getD false⟩

/-- The destructured locals of the `generate_text` case, defaults applied. -/
structure TextParams where
  prompt : Option String
  model : String
  seed : Option JSNum
  temperature : JSNum
  max_tokens : Option JSNum
  system : Option String
deriving DecidableEq, Repr

/-- The destructuring
`const { prompt, model = "openai", seed, temperature = 0.7, max_tokens,
system } = textArgs`. -/
def resolveTextArgs (a : ToolArgs) : TextParams :=
  ⟨a.prompt, a.model.getD "openai", a.seed, a.temperature.getD ⟨7, 1⟩,
   a.max_tokens, a.system⟩

/-- An optional number as a JSON field value (`undefined` when absent). -/
def optJNum : Option JSNum → JVal
  | some n => .jnum n
  | none => .jundefined

/-- The `URLSearchParams` built by the `generate_image` case: the five
base parameters in insertion order, with `seed` appended when supplied. -/
def imageQueryParams (p : ImageParams) : List (String × String) :=
  [("width", p.width.render), ("height", p.height.render), ("model", p.model),
   ("nologo", jsBoolString p.nologo), ("enhance", jsBoolString p.enhance)] ++
  (match p.seed with
   | some s => [("seed", s.render)]
   | none => [])

/-- The `imageUrl` template literal:
`${POLLINATIONS_IMAGE_API}/${encodedPrompt}?${params.toString()}`. -/
def buildImageUrl (promptStr : String) (p : ImageParams) : String :=
  POLLINATIONS_IMAGE_API ++ "/" ++ encodeURIComponent promptStr ++ "?" ++
    urlSearchParamsToString (imageQueryParams p)

/-- The HEAD existence-check request issued by `generate_image`. -/
def imageRequest (a : ToolArgs) (promptStr : String) : FetchRequest :=
  ⟨buildImageUrl promptStr (resolveImageArgs a), .head, [], none⟩

/-- The object serialized into the text part of a `generate_image`
success result. -/
def imageSuccessJson (imageUrl promptStr : String) (p : ImageParams) : JVal :=
  .jobj [("success", .jbool true), ("imageUrl", .jstr imageUrl),
         ("prompt", .jstr promptStr), ("width", .jnum p.width),
         ("height", .jnum p.height), ("model", .jstr p.model),
         ("seed", optJNum p.seed),
         ("message", .jstr "Image generated successfully! Use the imageUrl to display or download the image.")]

/-- The two content parts of a `generate_image` success result. -/
def imageSuccessContent (a : ToolArgs) (promptStr : String) : List ContentPart :=
  [.text ((imageSuccessJson (buildImageUrl promptStr (resolveImageArgs a)) promptStr
            (resolveImageArgs a)).stringifyP 0),
   .image (buildImageUrl promptStr (resolveImageArgs a)) "image/jpeg"]

/-- The `generate_image` case body: prompt check, URL construction, HEAD
request, and result or thrown error.  Returns the handler outcome and the
ordered list of outbound requests performed. -/
def runGenerateImage (a : ToolArgs) (net : FetchRequest → FetchOutcome) :
    Except JSError (List ContentPart) × List FetchRequest :=
  let p := resolveImageArgs a
  match p.prompt with
  | none => (.error (.error "Prompt is required"), [])
  | some promptStr =>
    if promptStr = "" then (.error (.error "Prompt is required"), [])
    else
      let req := imageRequest a promptStr
      match net req with
      | .fault e => (.error e, [req])
      | .resp ok statusText _ =>
        if ok then (.ok (imageSuccessContent a promptStr), [req])
        else (.error (.error ("Failed to generate image: " ++ statusText)), [req])

/-- The `requestBody` object built by the `generate_text` case: an optional
system message, the user message, `model`, `temperature`, then `seed` and
`max_tokens` added only when supplied. -/
def textRequestBody (promptStr : String) (p : TextParams) : JVal :=
  .jobj
    ([("messages", .jarr
        ((match p.system with
          | some s =>
            if s = "" then []
            else [.jobj [("role", .jstr "system"), ("content", .jstr s)]]
          | none => []) ++
         [.jobj [("role", .jstr "user"), ("content", .jstr promptStr)]])),
      ("model", .jstr p.model), ("temperature", .jnum p.temperature)] ++
     (match p.seed with
      | some s => [("seed", .jnum s)]
      | none => []) ++
     (match p.max_tokens with
      | some m => [("max_tokens", .jnum m)]
      | none => []))

/-- The POST request issued by `generate_text`. -/
def textRequest (a : ToolArgs) (promptStr : String) : FetchRequest :=
  ⟨POLLINATIONS_TEXT_API, .post, [("Content-Type", "application/json")],
   some ((textRequestBody promptStr (resolveTextArgs a)).stringifyC)⟩

/-- The object serialized into the text part of a `generate_text`
success result. -/
def textSuccessJson (respText promptStr : String) (p : TextParams) : JVal :=
  .jobj [("success", .jbool true), ("response", .jstr respText),
         ("model", .jstr p.model), ("prompt", .jstr promptStr),
         ("seed", optJNum p.seed), ("temperature", .jnum p.temperature)]

/-- The single content part of a `generate_text` success result. -/
def textSuccessContent (a : ToolArgs) (promptStr respText : String) : List ContentPart :=
  [.text ((textSuccessJson respText promptStr (resolveTextArgs a)).stringifyP 0)]

/-- The `generate_text` case body: prompt check, body construction, POST
request, and result or thrown error. -/
def runGenerateText (a : ToolArgs) (net : FetchRequest → FetchOutcome) :
    Except JSError (List ContentPart) × List FetchRequest :=
  let p := resolveTextArgs a
  match p.prompt with
  | none => (.error (.error "Prompt is required"), [])
  | some promptStr =>
    if promptStr = "" then (.error (.error "Prompt is required"), [])
    else
      let req := textRequest a promptStr
      match net req with
      | .fault e => (.error e, [req])
      | .resp ok statusText bodyText =>
        if ok then (.ok (textSuccessContent a promptStr bodyText), [req])
        else (.error (.error ("Failed to generate text: " ++ statusText)), [req])

/-- The static `models` object of the `get_available_models` case. -/
def models : JVal :=
  .jobj
    [("image_models", .jarr
        [.jobj [("name", .jstr "flux"),
                ("description", .jstr "High-quality general purpose image generation")],
         .jobj [("name", .jstr "flux-realism"),
                ("description", .jstr "Photorealistic image generation")],
         .jobj [("name", .jstr "flux-anime"),
                ("description", .jstr "Anime and manga style images")],
         .jobj [("name", .jstr "flux-3d"),
                ("description", .jstr "3D rendered style images")],
         .jobj [("name", .jstr "turbo"),
                ("description", .jstr "Fast image generation with good quality")]]),
     ("text_models", .jarr
        [.jobj [("name", .jstr "openai"),
                ("description", .jstr "OpenAI GPT models (default)")],
         .jobj [("name", .jstr "mistral"),
                ("description", .jstr "Mistral AI model")],
         .jobj [("name", .jstr "mistral-large"),
                ("description", .jstr "Mistral Large model for complex tasks")],
         .jobj [("name", .jstr "claude-3.5-sonnet"),
                ("description", .jstr "Anthropic Claude 3.5 Sonnet")],
         .jobj [("name", .jstr "llama-3.3-70b"),
                ("description", .jstr "Meta Llama 3.3 70B")],
         .jobj [("name", .jstr "qwen-2.5-coder-32b"),
                ("description", .jstr "Qwen 2.5 Coder 32B - specialized for coding")],
         .jobj [("name", .jstr "searchgpt"),
                ("description", .jstr "Search-augmented generation model")]])]

/-- The `switch (name)` statement: dispatch to a case body.  The default
case throws `Unknown tool: <name>`. -/
def dispatch (name : String) (a : ToolArgs) (net : FetchRequest → FetchOutcome) :
    Except JSError (List ContentPart) × List FetchRequest :=
  match name with
  | "generate_image" => runGenerateImage a net
  | "generate_text" => runGenerateText a net
  | "get_available_models" => (.ok [.text (models.stringifyP 0)], [])
  | _ => (.error (.error ("Unknown tool: " ++ name)), [])

/-- The `catch` clause's message:
`error instanceof Error ? error.message : "Unknown error occurred"`. -/
def JSError.caughtMessage : JSError → String
  | .error m => m
  | .nonError => "Unknown error occurred"

/-- The failure envelope built by the `catch` clause:
one text part `{success: false, error: <msg>}` and `isError: true`. -/
def failureEnvelope (msg : String) : CallToolResult :=
  ⟨[.text ((JVal.jobj [("success", .jbool false), ("error", .jstr msg)]).stringifyP 0)],
   true⟩

/-- The whole call-tool request handler: `args || {}`, the `try`/`switch`,
and the `catch` converting any thrown value into the failure envelope.
Also returns the ordered list of outbound network requests performed. -/
def handleCallTool (name : String) (args : Option ToolArgs)
    (net : FetchRequest → FetchOutcome) : CallToolResult × List FetchRequest :=
  match dispatch name (args.getD {}) net with
  | (.ok content, reqs) => (⟨content, false⟩, reqs)
  | (.error e, reqs) => (failureEnvelope e.caughtMessage, reqs)

/-! ## Unfolding lemmas shared by the claim theorems -/

/-- Dispatching `generate_image` runs the image case body. -/
theorem dispatch_image (a : ToolArgs) (net : FetchRequest → FetchOutcome) :
    dispatch "generate_image" a net = runGenerateImage a net := rfl

/-- Dispatching `generate_text` runs the text case body. -/
theorem dispatch_text (a : ToolArgs) (net : FetchRequest → FetchOutcome) :
    dispatch "generate_text" a net = runGenerateText a net := rfl

/-- Dispatching an unknown name falls to the `default` case and throws. -/
theorem dispatch_default (name : String) (a : ToolArgs) (net : FetchRequest → FetchOutcome)
    (h1 : name ≠ "generate_image") (h2 : name ≠ "generate_text")
    (h3 : name ≠ "get_available_models") :
    dispatch name a net = (.error (.error ("Unknown tool: " ++ name)), []) := by
  unfold dispatch
  split
  · exact absurd rfl h1
  · exact absurd rfl h2
  · exact absurd rfl h3
  · rfl

/-- With a non-empty prompt, the image case issues its HEAD request and
maps each network outcome to the corresponding handler outcome. -/
theorem runGenerateImage_eq (a : ToolArgs) (net : FetchRequest → FetchOutcome)
    (promptStr : String) (hp : a.prompt = some promptStr) (hne : promptStr ≠ "") :
    runGenerateImage a net =
      (match net (imageRequest a promptStr) with
       | .fault e => (.error e, [imageRequest a promptStr])
       | .resp ok statusText _ =>
         if ok then (.ok (imageSuccessContent a promptStr), [imageRequest a promptStr])
         else (.error (.error ("Failed to generate image: " ++ statusText)),
               [imageRequest a promptStr])) := by
  unfold runGenerateImage
  simp only [resolveImageArgs, hp]
  rw [if_neg hne]

/-- With a non-empty prompt, the text case issues its POST request and
maps each network outcome to the corresponding handler outcome. -/
theorem runGenerateText_eq (a : ToolArgs) (net : FetchRequest → FetchOutcome)
    (promptStr : String) (hp : a.prompt = some promptStr) (hne : promptStr ≠ "") :
    runGenerateText a net =
      (match net (textRequest a promptStr) with
       | .fault e => (.error e, [textRequest a promptStr])
       | .resp ok statusText bodyText =>
         if ok then (.ok (textSuccessContent a promptStr bodyText), [textRequest a promptStr])
         else (.error (.error ("Failed to generate text: " ++ statusText)),
               [textRequest a promptStr])) := by
  unfold runGenerateText
  simp only [resolveTextArgs, hp]
  rw [if_neg hne]

/-- A dispatch outcome that throws is converted by the `catch` clause into
the failure envelope of the thrown value's message. -/
theorem handleCallTool_of_dispatch_fault (name : String) (args : Option ToolArgs)
    (net : FetchRequest → FetchOutcome) (e : JSError) (reqs : List FetchRequest)
    (h : dispatch name (args.getD {}) net = (.error e, reqs)) :
    handleCallTool name args net = (failureEnvelope e.caughtMessage, reqs) := by
  unfold handleCallTool
  rw [h]

/-- A dispatch outcome that returns is passed through with `isError`
unset. -/
theorem handleCallTool_of_dispatch_ok (name : String) (args : Option ToolArgs)
    (net : FetchRequest → FetchOutcome) (c : List ContentPart) (reqs : List FetchRequest)
    (h : dispatch name (args.getD {}) net = (.ok c, reqs)) :
    handleCallTool name args net = (⟨c, false⟩, reqs) := by
  unfold handleCallTool
  rw [h]

/-- An absent or empty prompt makes the image case throw before any
request is issued. -/
theorem runGenerateImage_no_prompt (a : ToolArgs) (net : FetchRequest → FetchOutcome)
    (h : a.prompt = none ∨ a.prompt = some "") :
    runGenerateImage a net = (.error (.error "Prompt is required"), []) := by
  unfold runGenerateImage
  rcases h with h | h <;> simp [resolveImageArgs, h]

/-- An absent or empty prompt makes the text case throw before any
request is issued. -/
theorem runGenerateText_no_prompt (a : ToolArgs) (net : FetchRequest → FetchOutcome)
    (h : a.prompt = none ∨ a.prompt = some "") :
    runGenerateText a net = (.error (.error "Prompt is required"), []) := by
  unfold runGenerateText
  rcases h with h | h <;> simp [resolveTextArgs, h]

/-! ## Claim theorems -/

/-- C1: for every invocation, any fault raised during dispatch is caught at
the invoke boundary and converted into the failure envelope
`{success: false, error: <message>}` with `isError` set: every result is
either a non-error result or the failure envelope of some message, a
network fault on a dispatched call yields exactly the envelope of the
fault's message, and a fault carrying no message yields the message
`Unknown error occurred`. -/
theorem invoke_catches_all_faults :
    (∀ (name : String) (args : Option ToolArgs) (net : FetchRequest → FetchOutcome),
        (handleCallTool name args net).1.isError = false ∨
        ∃ msg, (handleCallTool name args net).1 = failureEnvelope msg) ∧
    (∀ (promptStr : String) (a : ToolArgs) (e : JSError),
        a.prompt = some promptStr → promptStr ≠ "" →
        (handleCallTool "generate_image" (some a) (fun _ => .fault e)).1 =
            failureEnvelope e.caughtMessage ∧
        (handleCallTool "generate_text" (some a) (fun _ => .fault e)).1 =
            failureEnvelope e.caughtMessage) ∧
    JSError.caughtMessage .nonError = "Unknown error occurred" := by
  refine ⟨?_, ?_, rfl⟩
  · intro name args net
    cases h : dispatch name (args.getD {}) net with
    | mk r reqs =>
      cases r with
      | ok c =>
        left
        unfold handleCallTool
        rw [h]
      | error e =>
        right
        refine ⟨e.caughtMessage, ?_⟩
        unfold handleCallTool
        rw [h]
  · intro promptStr a e hp hne
    constructor
    · have hd : dispatch "generate_image" a (fun _ => .fault e) =
          (.error e, [imageRequest a promptStr]) := by
        rw [dispatch_image, runGenerateImage_eq a _ promptStr hp hne]
      rw [handleCallTool_of_dispatch_fault _ (some a) _ e _ hd]
    · have hd : dispatch "generate_text" a (fun _ => .fault e) =
          (.error e, [textRequest a promptStr]) := by
        rw [dispatch_text, runGenerateText_eq a _ promptStr hp hne]
      rw [handleCallTool_of_dispatch_fault _ (some a) _ e _ hd]

/-- C1 witness: a faulting network call with a message-less thrown value
produces the `Unknown error occurred` failure envelope. -/
theorem invoke_catches_all_faults_witness :
    (handleCallTool "generate_image" (some { prompt := some "cat" })
        (fun _ => .fault .nonError)).1 = failureEnvelope "Unknown error occurred" := by
  have h := invoke_catches_all_faults.2.1 "cat" { prompt := some "cat" }
    .nonError rfl (by decide)
  exact h.1

/-- C2: a `generate_image` or `generate_text` invocation whose arguments
have an absent or empty prompt fails with exactly `Prompt is required`,
and the list of outbound requests is empty. -/
theorem prompt_required_before_network (name : String) (args : Option ToolArgs)
    (net : FetchRequest → FetchOutcome)
    (hname : name = "generate_image" ∨ name = "generate_text")
    (hprompt : (args.getD {}).prompt = none ∨ (args.getD {}).prompt = some "") :
    handleCallTool name args net = (failureEnvelope "Prompt is required", []) := by
  rcases hname with h | h <;> subst h
  · exact handleCallTool_of_dispatch_fault "generate_image" args net
      (.error "Prompt is required") []
      ((dispatch_image _ _).trans (runGenerateImage_no_prompt _ _ hprompt))
  · exact handleCallTool_of_dispatch_fault "generate_text" args net
      (.error "Prompt is required") []
      ((dispatch_text _ _).trans (runGenerateText_no_prompt _ _ hprompt))

/-- C2 witness: `generate_image` with no arguments fails with
`Prompt is required` and performs no network call. -/
theorem prompt_required_before_network_witness :
    handleCallTool "generate_image" (some {}) (fun _ => .resp true "OK" "") =
      (failureEnvelope "Prompt is required", []) :=
  prompt_required_before_network "generate_image" (some {}) _
    (Or.inl rfl) (Or.inl rfl)

/-- C3: an invocation whose operation name is none of the three known names
fails with exactly `Unknown tool: <name>` and performs no network call. -/
theorem unknown_tool_failure (name : String) (args : Option ToolArgs)
    (net : FetchRequest → FetchOutcome)
    (h1 : name ≠ "generate_image") (h2 : name ≠ "generate_text")
    (h3 : name ≠ "get_available_models") :
    handleCallTool name args net = (failureEnvelope ("Unknown tool: " ++ name), []) :=
  handleCallTool_of_dispatch_fault name args net
    (.error ("Unknown tool: " ++ name)) []
    (dispatch_default name (args.getD {}) net h1 h2 h3)

/-- C3 witness: invoking `unknown_op` fails with `Unknown tool: unknown_op`
and performs no network call. -/
theorem unknown_tool_failure_witness :
    handleCallTool "unknown_op" (some { prompt := some "x" }) (fun _ => .resp true "OK" "") =
      (failureEnvelope "Unknown tool: unknown_op", []) :=
  unknown_tool_failure "unknown_op" (some { prompt := some "x" }) _
    (by decide) (by decide) (by decide)

/-- C4: a `generate_image` invocation with a non-empty prompt issues exactly
one HEAD request whose URL is the fixed base endpoint, the percent-encoded
prompt as a path segment, and a query string of exactly
`width`, `height`, `model`, `nologo`, `enhance` (numbers in decimal,
booleans as `true`/`false`), with `seed` appended iff a seed was
supplied. -/
theorem image_url_construction (a : ToolArgs) (net : FetchRequest → FetchOutcome)
    (promptStr : String) (hp : a.prompt = some promptStr) (hne : promptStr ≠ "") :
    (handleCallTool "generate_image" (some a) net).2 =
      [⟨POLLINATIONS_IMAGE_API ++ "/" ++ encodeURIComponent promptStr ++ "?" ++
          urlSearchParamsToString
            ([("width", (a.width.getD (JSNum.int 1024)).render),
              ("height", (a.height.getD (JSNum.int 1024)).render),
              ("model", a.model.getD "flux"),
              ("nologo", jsBoolString (a.nologo.getD true)),
              ("enhance", jsBoolString (a.enhance.getD false))] ++
             (match a.seed with
              | some s => [("seed", s.render)]
              | none => [])),
        .head, [], none⟩] := by
  have hreq : imageRequest a promptStr =
      ⟨POLLINATIONS_IMAGE_API ++ "/" ++ encodeURIComponent promptStr ++ "?" ++
          urlSearchParamsToString
            ([("width", (a.width.getD (JSNum.int 1024)).render),
              ("height", (a.height.getD (JSNum.int 1024)).render),
              ("model", a.model.getD "flux"),
              ("nologo", jsBoolString (a.nologo.getD true)),
              ("enhance", jsBoolString (a.enhance.getD false))] ++
             (match a.seed with
              | some s => [("seed", s.render)]
              | none => [])),
        .head, [], none⟩ := by
    simp [imageRequest, buildImageUrl, imageQueryParams, resolveImageArgs]
  unfold handleCallTool
  rw [show (some a).getD ({} : ToolArgs) = a from rfl, dispatch_image,
    runGenerateImage_eq a net promptStr hp hne]
  cases hnr : net (imageRequest a promptStr) with
  | fault e => simp [hreq]
  | resp ok st b => cases ok <;> simp [hreq]

/-- C4 witness: the request URL for prompt `a cat` with seed 42 and all
other arguments defaulted. -/
theorem image_url_construction_witness :
    (handleCallTool "generate_image"
        (some { prompt := some "a cat", seed := some (JSNum.int 42) })
        (fun _ => .resp true "OK" "")).2 =
      [⟨POLLINATIONS_IMAGE_API ++ "/" ++ encodeURIComponent "a cat" ++ "?" ++
          urlSearchParamsToString
            [("width", "1024"), ("height", "1024"), ("model", "flux"),
             ("nologo", "true"), ("enhance", "false"), ("seed", "42")],
        .head, [], none⟩] := by
  have h := image_url_construction { prompt := some "a cat", seed := some (JSNum.int 42) }
    (fun _ => .resp true "OK" "") "a cat" rfl (by decide)
  exact h.trans (by decide)

/-- C5: a `generate_image` invocation with a non-empty prompt whose HEAD
request succeeds returns a non-error result with exactly two parts: a text
part serializing `{success: true, imageUrl, prompt, width, height, model,
seed, message}` and an image part carrying the same URL as the outbound
request. -/
theorem image_success_result (a : ToolArgs) (net : FetchRequest → FetchOutcome)
    (promptStr st bodyStr : String)
    (hp : a.prompt = some promptStr) (hne : promptStr ≠ "")
    (hnet : net (imageRequest a promptStr) = .resp true st bodyStr) :
    handleCallTool "generate_image" (some a) net =
      (⟨[ContentPart.text ((JVal.jobj
            [("success", .jbool true),
             ("imageUrl", .jstr (buildImageUrl promptStr (resolveImageArgs a))),
             ("prompt", .jstr promptStr),
             ("width", .jnum (a.width.getD (JSNum.int 1024))),
             ("height", .jnum (a.height.getD (JSNum.int 1024))),
             ("model", .jstr (a.model.getD "flux")),
             ("seed", optJNum a.seed),
             ("message", .jstr "Image generated successfully! Use the imageUrl to display or download the image.")]).stringifyP 0),
          ContentPart.image (buildImageUrl promptStr (resolveImageArgs a)) "image/jpeg"],
        false⟩,
       [⟨buildImageUrl promptStr (resolveImageArgs a), .head, [], none⟩]) := by
  unfold handleCallTool
  rw [show (some a).getD ({} : ToolArgs) = a from rfl, dispatch_image,
    runGenerateImage_eq a net promptStr hp hne, hnet]
  simp [imageSuccessContent, imageSuccessJson, imageRequest, resolveImageArgs]

/-- C5 witness: success result for prompt `a cat` with defaults and a
succeeding HEAD request. -/
theorem image_success_result_witness :
    handleCallTool "generate_image" (some { prompt := some "a cat" })
        (fun _ => .resp true "OK" "") =
      (⟨[ContentPart.text ((JVal.jobj
            [("success", .jbool true),
             ("imageUrl", .jstr (buildImageUrl "a cat" (resolveImageArgs { prompt := some "a cat" }))),
             ("prompt", .jstr "a cat"),
             ("width", .jnum (JSNum.int 1024)),
             ("height", .jnum (JSNum.int 1024)),
             ("model", .jstr "flux"),
             ("seed", optJNum none),
             ("message", .jstr "Image generated successfully! Use the imageUrl to display or download the image.")]).stringifyP 0),
          ContentPart.image (buildImageUrl "a cat" (resolveImageArgs { prompt := some "a cat" })) "image/jpeg"],
        false⟩,
       [⟨buildImageUrl "a cat" (resolveImageArgs { prompt := some "a cat" }), .head, [], none⟩]) := by
  have h := image_success_result { prompt := some "a cat" } (fun _ => .resp true "OK" "")
    "a cat" "OK" "" rfl (by decide) rfl
  exact h

/-- C6: a `generate_text` invocation with a non-empty prompt POSTs to the
fixed text endpoint with a JSON content type and a body
`{messages, model, temperature}` where `messages` is an optional system
message followed by the user prompt message and `seed`/`max_tokens` are
present iff supplied; on a success response it returns one text part
serializing `{success: true, response, model, prompt, seed,
temperature}`. -/
theorem text_request_and_success (a : ToolArgs) (net : FetchRequest → FetchOutcome)
    (promptStr st bodyText : String)
    (hp : a.prompt = some promptStr) (hne : promptStr ≠ "")
    (hnet : net (textRequest a promptStr) = .resp true st bodyText) :
    textRequest a promptStr =
      ⟨POLLINATIONS_TEXT_API, .post, [("Content-Type", "application/json")],
       some ((JVal.jobj
          ([("messages", .jarr
              ((match a.system with
                | some s =>
                  if s = "" then []
                  else [JVal.jobj [("role", .jstr "system"), ("content", .jstr s)]]
                | none => []) ++
               [JVal.jobj [("role", .jstr "user"), ("content", .jstr promptStr)]])),
            ("model", .jstr (a.model.getD "openai")),
            ("temperature", .jnum (a.temperature.getD ⟨7, 1⟩))] ++
           (match a.seed with
            | some s => [("seed", JVal.jnum s)]
            | none => []) ++
           (match a.max_tokens with
            | some m => [("max_tokens", JVal.jnum m)]
            | none => []))).stringifyC)⟩ ∧
    handleCallTool "generate_text" (some a) net =
      (⟨[ContentPart.text ((JVal.jobj
            [("success", .jbool true), ("response", .jstr bodyText),
             ("model", .jstr (a.model.getD "openai")), ("prompt", .jstr promptStr),
             ("seed", optJNum a.seed),
             ("temperature", .jnum (a.temperature.getD ⟨7, 1⟩))]).stringifyP 0)],
        false⟩,
       [textRequest a promptStr]) := by
  constructor
  · simp [textRequest, textRequestBody, resolveTextArgs]
  · unfold handleCallTool
    rw [show (some a).getD ({} : ToolArgs) = a from rfl, dispatch_text,
      runGenerateText_eq a net promptStr hp hne, hnet]
    simp [textSuccessContent, textSuccessJson, resolveTextArgs]

/-- C6 witness: `generate_text` with prompt `hello`, model `mistral` and
temperature 1.5 against a remote answering `hi there`. -/
theorem text_request_and_success_witness :
    handleCallTool "generate_text"
        (some { prompt := some "hello", model := some "mistral",
                temperature := some ⟨15, 1⟩ })
        (fun _ => .resp true "OK" "hi there") =
      (⟨[ContentPart.text ((JVal.jobj
            [("success", .jbool true), ("response", .jstr "hi there"),
             ("model", .jstr "mistral"), ("prompt", .jstr "hello"),
             ("seed", optJNum none),
             ("temperature", .jnum ⟨15, 1⟩)]).stringifyP 0)],
        false⟩,
       [textRequest { prompt := some "hello", model := some "mistral",
                      temperature := some ⟨15, 1⟩ } "hello"]) := by
  have h := text_request_and_success
    { prompt := some "hello", model := some "mistral", temperature := some ⟨15, 1⟩ }
    (fun _ => .resp true "OK" "hi there") "hello" "OK" "hi there" rfl (by decide) rfl
  exact h.2

/-- C7: a non-success HTTP status makes `generate_image` fail with exactly
`Failed to generate image: <status text>` and `generate_text` fail with
exactly `Failed to generate text: <status text>`, the remote's status text
included verbatim. -/
theorem remote_status_failure_message (a : ToolArgs) (net : FetchRequest → FetchOutcome)
    (promptStr st bodyStr : String)
    (hp : a.prompt = some promptStr) (hne : promptStr ≠ "") :
    (net (imageRequest a promptStr) = .resp false st bodyStr →
      (handleCallTool "generate_image" (some a) net).1 =
        failureEnvelope ("Failed to generate image: " ++ st)) ∧
    (net (textRequest a promptStr) = .resp false st bodyStr →
      (handleCallTool "generate_text" (some a) net).1 =
        failureEnvelope ("Failed to generate text: " ++ st)) := by
  constructor
  · intro hnet
    unfold handleCallTool
    rw [show (some a).getD ({} : ToolArgs) = a from rfl, dispatch_image,
      runGenerateImage_eq a net promptStr hp hne, hnet]
    rfl
  · intro hnet
    unfold handleCallTool
    rw [show (some a).getD ({} : ToolArgs) = a from rfl, dispatch_text,
      runGenerateText_eq a net promptStr hp hne, hnet]
    rfl

/-- C7 witness: a 404 (`Not Found`) HEAD response makes `generate_image`
fail with `Failed to generate image: Not Found`. -/
theorem remote_status_failure_message_witness :
    (handleCallTool "generate_image" (some { prompt := some "x" })
        (fun _ => .resp false "Not Found" "")).1 =
      failureEnvelope "Failed to generate image: Not Found" := by
  have h := remote_status_failure_message { prompt := some "x" }
    (fun _ => .resp false "Not Found" "") "x" "Not Found" "" rfl (by decide)
  exact h.1 rfl

/-- C8: whenever an optional argument is absent the destructuring
declarations apply its documented default — width 1024, height 1024, model
`flux`, nologo true, enhance false for images; model `openai`, temperature
0.7 for text — while seed, max_tokens and system receive no default and
stay absent; an empty optional-argument set yields exactly the documented
defaults. -/
theorem declared_defaults_applied :
    (∀ a : ToolArgs,
      (resolveImageArgs { a with width := none }).width = JSNum.int 1024 ∧
      (resolveImageArgs { a with height := none }).height = JSNum.int 1024 ∧
      (resolveImageArgs { a with model := none }).model = "flux" ∧
      (resolveImageArgs { a with nologo := none }).nologo = true ∧
      (resolveImageArgs { a with enhance := none }).enhance = false ∧
      (resolveTextArgs { a with model := none }).model = "openai" ∧
      (resolveTextArgs { a with temperature := none }).temperature = ⟨7, 1⟩ ∧
      (resolveImageArgs a).seed = a.seed ∧
      (resolveTextArgs a).seed = a.seed ∧
      (resolveTextArgs a).max_tokens = a.max_tokens ∧
      (resolveTextArgs a).system = a.system) ∧
    (∀ p, resolveImageArgs { prompt := p } =
      ⟨p, JSNum.int 1024, JSNum.int 1024, none, "flux", true, false⟩) ∧
    (∀ p, resolveTextArgs { prompt := p } =
      ⟨p, "openai", none, ⟨7, 1⟩, none, none⟩) := by
  refine ⟨fun a => ⟨rfl, rfl, rfl, rfl, rfl, rfl, rfl, rfl, rfl, rfl, rfl⟩, fun p => rfl, fun p => rfl⟩

/-- C9: `get_available_models` performs no network call and returns a
non-error result with one text part serializing the fixed catalog: five
image models and seven text models, each `{name, description}`. -/
theorem available_models_static (args : Option ToolArgs) (net : FetchRequest → FetchOutcome) :
    handleCallTool "get_available_models" args net =
      (⟨[ContentPart.text ((JVal.jobj
          [("image_models", .jarr
              [.jobj [("name", .jstr "flux"),
                      ("description", .jstr "High-quality general purpose image generation")],
               .jobj [("name", .jstr "flux-realism"),
                      ("description", .jstr "Photorealistic image generation")],
               .jobj [("name", .jstr "flux-anime"),
                      ("description", .jstr "Anime and manga style images")],
               .jobj [("name", .jstr "flux-3d"),
                      ("description", .jstr "3D rendered style images")],
               .jobj [("name", .jstr "turbo"),
                      ("description", .jstr "Fast image generation with good quality")]]),
           ("text_models", .jarr
              [.jobj [("name", .jstr "openai"),
                      ("description", .jstr "OpenAI GPT models (default)")],
               .jobj [("name", .jstr "mistral"),
                      ("description", .jstr "Mistral AI model")],
               .jobj [("name", .jstr "mistral-large"),
                      ("description", .jstr "Mistral Large model for complex tasks")],
               .jobj [("name", .jstr "claude-3.5-sonnet"),
                      ("description", .jstr "Anthropic Claude 3.5 Sonnet")],
               .jobj [("name", .jstr "llama-3.3-70b"),
                      ("description", .jstr "Meta Llama 3.3 70B")],
               .jobj [("name", .jstr "qwen-2.5-coder-32b"),
                      ("description", .jstr "Qwen 2.5 Coder 32B - specialized for coding")],
               .jobj [("name", .jstr "searchgpt"),
                      ("description", .jstr "Search-augmented generation model")]])]).stringifyP 0)],
        false⟩,
       []) :=
  handleCallTool_of_dispatch_ok _ _ _ _ _ rfl

/-- C10: no runtime validation beyond the prompt check — a model outside
the declared enumeration and a temperature outside the declared range are
forwarded unchanged into the outbound request, and the invocation still
succeeds when the remote responds successfully. -/
theorem prompt_check_only_validation (promptStr m st bodyStr : String) (t : JSNum)
    (hne : promptStr ≠ "") :
    ((handleCallTool "generate_image" (some { prompt := some promptStr, model := some m })
        (fun _ => .resp true st bodyStr)).1.isError = false ∧
     (handleCallTool "generate_image" (some { prompt := some promptStr, model := some m })
        (fun _ => .resp true st bodyStr)).2 =
       [⟨POLLINATIONS_IMAGE_API ++ "/" ++ encodeURIComponent promptStr ++ "?" ++
           urlSearchParamsToString
             [("width", "1024"), ("height", "1024"), ("model", m),
              ("nologo", "true"), ("enhance", "false")],
         .head, [], none⟩]) ∧
    ((handleCallTool "generate_text" (some { prompt := some promptStr, temperature := some t })
        (fun _ => .resp true st bodyStr)).1.isError = false ∧
     (handleCallTool "generate_text" (some { prompt := some promptStr, temperature := some t })
        (fun _ => .resp true st bodyStr)).2 =
       [⟨POLLINATIONS_TEXT_API, .post, [("Content-Type", "application/json")],
         some ((JVal.jobj
            [("messages", .jarr [JVal.jobj [("role", .jstr "user"), ("content", .jstr promptStr)]]),
             ("model", .jstr "openai"), ("temperature", .jnum t)]).stringifyC)⟩]) := by
  have hi := runGenerateImage_eq { prompt := some promptStr, model := some m }
    (fun _ => .resp true st bodyStr) promptStr rfl hne
  have ht := runGenerateText_eq { prompt := some promptStr, temperature := some t }
    (fun _ => .resp true st bodyStr) promptStr rfl hne
  refine ⟨⟨?_, ?_⟩, ?_, ?_⟩
  · unfold handleCallTool
    rw [show (some { prompt := some promptStr, model := some m } : Option ToolArgs).getD
      ({} : ToolArgs) = { prompt := some promptStr, model := some m } from rfl,
      dispatch_image, hi]
    rfl
  · unfold handleCallTool
    rw [show (some { prompt := some promptStr, model := some m } : Option ToolArgs).getD
      ({} : ToolArgs) = { prompt := some promptStr, model := some m } from rfl,
      dispatch_image, hi]
    simp [imageRequest, buildImageUrl, imageQueryParams, resolveImageArgs,
      jsBoolString, JSNum.render, JSNum.norm, JSNum.normGo, JSNum.int]
    rfl
  · unfold handleCallTool
    rw [show (some { prompt := some promptStr, temperature := some t } : Option ToolArgs).getD
      ({} : ToolArgs) = { prompt := some promptStr, temperature := some t } from rfl,
      dispatch_text, ht]
    rfl
  · unfold handleCallTool
    rw [show (some { prompt := some promptStr, temperature := some t } : Option ToolArgs).getD
      ({} : ToolArgs) = { prompt := some promptStr, temperature := some t } from rfl,
      dispatch_text, ht]
    simp [textRequest, textRequestBody, resolveTextArgs]

/-- C10 witness: an out-of-enumeration model `not-a-model` and an
out-of-range temperature 5 are forwarded unchanged and the invocations
succeed. -/
theorem prompt_check_only_validation_witness :
    ((handleCallTool "generate_image"
        (some { prompt := some "x", model := some "not-a-model" })
        (fun _ => .resp true "OK" "")).1.isError = false ∧
     (handleCallTool "generate_text"
        (some { prompt := some "x", temperature := some (JSNum.int 5) })
        (fun _ => .resp true "OK" "")).1.isError = false) := by
  have h := prompt_check_only_validation "x" "not-a-model" "OK" ""
    (JSNum.int 5) (by decide)
  exact ⟨h.1.1, h.2.1⟩

end Pollinations
